import Mathlib

/-!
Verification of the speech-to-summary session component (src/src/App.tsx).

The component keeps five pieces of React state — `isListening`, `transcript`,
`summary`, `isSummarizing`, `error` — plus a closure variable
`finalTranscript` inside the recognition-setup effect, and a ref holding the
recognition object (or null when the host has no speech-recognition
capability). We embed the state as a structure, each handler as a pure
function on it, and the asynchronous summarization call as a start step plus
a completion step parameterised by the outcome of the HTTP request.
-/

namespace SpeechApp

/-- One recognition result segment, as seen by `recognition.onresult`:
`event.results[i][0].transcript` together with `event.results[i].isFinal`. -/
structure Segment where
  text : String
  isFinal : Bool
deriving DecidableEq, Repr

/-- Outcome of the axios POST in `summarizeTranscript`:
`ok choices` is a 2xx response whose body parsed to `{choices: [...]}` with
the given list of choice texts; `err cause` is a network error or non-2xx
response (axios throws), carrying the underlying cause. A well-formed 2xx
response with an empty `choices` array still makes
`response.data.choices[0].text` throw in JS, which the catch block handles,
so `ok []` is also a failure path. -/
inductive SummarizeResult where
  | ok (choices : List String)
  | err (cause : String)
deriving DecidableEq, Repr

/-- The session state of the `App` component. `finalTranscript` is the
closure variable accumulated by `onresult`; `recognitionAvailable` records
whether `window.SpeechRecognition || window.webkitSpeechRecognition` existed
(i.e. whether `recognitionRef.current` is non-null); `log` models the
`console.error` diagnostics channel. -/
structure AppState where
  isListening : Bool
  transcript : String
  summary : String
  isSummarizing : Bool
  error : Option String
  finalTranscript : String
  recognitionAvailable : Bool
  log : List String
deriving DecidableEq, Repr

/-- Error text shown when the capability is absent (App.tsx line 46). -/
def unsupportedMsg : String :=
  "Your browser doesn't support speech recognition. Please try using Chrome or Edge."

/-- Error text shown when `recognition.start()` throws (App.tsx line 59). -/
def startFailMsg : String :=
  "Couldn't start speech recognition. Please try again."

/-- Error text shown when summarizing an empty transcript (App.tsx line 75). -/
def emptyMsg : String :=
  "There's no text to summarize. Please transcribe some speech first."

/-- Error text shown when the summarization request fails (App.tsx line 102). -/
def genericFailMsg : String :=
  "Failed to generate summary. Please try again."

/-- State after mount: the `useState` initial values, then the setup effect,
which either installs the recognition object (capability available) or sets
the capability-unsupported error (App.tsx lines 13-48). -/
def initState (available : Bool) : AppState :=
  { isListening := false
    transcript := ""
    summary := ""
    isSummarizing := false
    error := if available then none else some unsupportedMsg
    finalTranscript := ""
    recognitionAvailable := available
    log := [] }

/-- The loop body of `recognition.onresult` (App.tsx lines 24-31): fold the
event's segments, appending each final segment's text plus a space to
`finalTranscript` and each interim segment's text to `interimTranscript`. -/
def foldSegments (segs : List Segment) (ft it : String) : String × String :=
  segs.foldl
    (fun p seg =>
      if seg.isFinal then (p.1 ++ seg.text ++ " ", p.2) else (p.1, p.2 ++ seg.text))
    (ft, it)

/-- `recognition.onresult` (App.tsx lines 23-33): starts with a fresh empty
`interimTranscript`, folds the event's segments, and displays
`finalTranscript + interimTranscript`. -/
def onresult (segs : List Segment) (s : AppState) : AppState :=
  let p := foldSegments segs s.finalTranscript ""
  { s with finalTranscript := p.1, transcript := p.1 ++ p.2 }

/-- `recognition.onerror` (App.tsx lines 35-38). -/
def onerror (e : String) (s : AppState) : AppState :=
  { s with error := some ("Speech recognition error: " ++ e), isListening := false }

/-- `recognition.onend` (App.tsx lines 40-42). -/
def onend (s : AppState) : AppState :=
  { s with isListening := false }

/-- `toggleListening` (App.tsx lines 50-62). When listening, it calls
`recognitionRef.current?.stop()`, which changes no state synchronously (the
flag is reset later by `onend`). Otherwise it calls
`recognitionRef.current?.start()` inside try/catch: the call can only throw
when a recognition object exists (optional chaining on a null ref is a
no-op), and on no throw the code sets `isListening` to true and `error` to
null; on throw it sets the start-failure error. `startThrows` says whether
`start()` would throw if actually invoked. -/
def toggleListening (startThrows : Bool) (s : AppState) : AppState :=
  if s.isListening then s
  else if s.recognitionAvailable && startThrows then
    { s with error := some startFailMsg }
  else
    { s with isListening := true, error := none }

/-- `clearTranscript` (App.tsx lines 68-71). -/
def clearTranscript (s : AppState) : AppState :=
  { s with transcript := "", summary := "" }

/-- The synchronous prefix of `summarizeTranscript` (App.tsx lines 73-81):
with an empty transcript it sets the empty-input error and returns without
any network call; otherwise it sets `isSummarizing` and clears `error`, and
the request goes out. The boolean reports whether a request was issued. -/
def summarizeStart (s : AppState) : AppState × Bool :=
  if s.transcript = "" then ({ s with error := some emptyMsg }, false)
  else ({ s with isSummarizing := true, error := none }, true)

/-- Drop leading and trailing whitespace characters from a character list. -/
def trimChars (l : List Char) : List Char :=
  (((l.dropWhile Char.isWhitespace).reverse).dropWhile Char.isWhitespace).reverse

/-- The JavaScript string trim operation used on the first choice's text
(App.tsx line 100): remove surrounding whitespace. -/
def trimStr (s : String) : String :=
  String.mk (trimChars s.data)

/-- Settlement of the axios request (App.tsx lines 82-106): on success the
summary becomes `response.data.choices[0].text.trim()`; on any failure
(network error, non-2xx, or a body on which `choices[0].text` throws) the
catch block sets the generic failure message and logs the cause; the finally
block resets `isSummarizing` in every case. -/
def summarizeComplete (r : SummarizeResult) (s : AppState) : AppState :=
  match r with
  | .ok (c :: _) => { s with summary := trimStr c, isSummarizing := false }
  | .ok [] =>
      { s with error := some genericFailMsg, isSummarizing := false,
               log := s.log ++ ["Error summarizing transcript: choices[0] is undefined"] }
  | .err cause =>
      { s with error := some genericFailMsg, isSummarizing := false,
               log := s.log ++ ["Error summarizing transcript: " ++ cause] }

/-- A failing summarization outcome: network error, non-2xx, or malformed
body (no first choice). -/
def SummarizeResult.isFailure : SummarizeResult → Bool
  | .ok [] => true
  | .ok (_ :: _) => false
  | .err _ => true

/-- Deliver a sequence of recognition-update events to `onresult`. -/
def runResults (evs : List (List Segment)) (s : AppState) : AppState :=
  evs.foldl (fun s segs => onresult segs s) s

/-- Concatenation of the texts of the final segments of one event, each
followed by one separating space. -/
def finalsOf (segs : List Segment) : String :=
  String.join ((segs.filter (fun seg => seg.isFinal)).map (fun seg => seg.text ++ " "))

/-- Concatenation of the texts of the interim segments of one event. -/
def interimsOf (segs : List Segment) : String :=
  String.join ((segs.filter (fun seg => !seg.isFinal)).map (fun seg => seg.text))

/-- The transcript the spec predicts after a sequence of events: all final
segments of all events so far, each followed by a space, then the interim
segments of only the most recent event. -/
def specTranscript (evs : List (List Segment)) : String :=
  String.join (evs.map finalsOf) ++ interimsOf (evs.getLast?.getD [])

theorem foldl_append_shift (l : List String) (a b : String) :
    List.foldl (fun r s => r ++ s) (a ++ b) l =
      a ++ List.foldl (fun r s => r ++ s) b l := by
  induction l generalizing b with
  | nil => simp
  | cons x xs ih => simp [List.foldl_cons, String.append_assoc, ih]

theorem join_cons (a : String) (l : List String) :
    String.join (a :: l) = a ++ String.join l := by
  have h := foldl_append_shift l a ""
  simpa [String.join] using h

theorem foldSegments_eq (segs : List Segment) (ft it : String) :
    foldSegments segs ft it = (ft ++ finalsOf segs, it ++ interimsOf segs) := by
  induction segs generalizing ft it with
  | nil => simp [foldSegments, finalsOf, interimsOf, String.join]
  | cons seg rest ih =>
    by_cases h : seg.isFinal = true
    · have h1 : foldSegments (seg :: rest) ft it =
          foldSegments rest (ft ++ seg.text ++ " ") it := by
        simp [foldSegments, h]
      rw [h1, ih]
      simp [finalsOf, interimsOf, h, join_cons, String.append_assoc]
    · have h1 : foldSegments (seg :: rest) ft it =
          foldSegments rest ft (it ++ seg.text) := by
        simp [foldSegments, h]
      rw [h1, ih]
      simp [finalsOf, interimsOf, h, join_cons, String.append_assoc]

theorem onresult_finalTranscript (segs : List Segment) (s : AppState) :
    (onresult segs s).finalTranscript = s.finalTranscript ++ finalsOf segs := by
  simp [onresult, foldSegments_eq]

theorem onresult_transcript (segs : List Segment) (s : AppState) :
    (onresult segs s).transcript = s.finalTranscript ++ finalsOf segs ++ interimsOf segs := by
  simp [onresult, foldSegments_eq, String.append_assoc]

theorem runResults_finalTranscript (evs : List (List Segment)) (s : AppState) :
    (runResults evs s).finalTranscript = s.finalTranscript ++ String.join (evs.map finalsOf) := by
  induction evs generalizing s with
  | nil => simp [runResults, String.join]
  | cons e rest ih =>
    simp only [runResults, List.foldl_cons] at ih ⊢
    rw [ih, onresult_finalTranscript]
    simp [join_cons, String.append_assoc]

theorem runResults_transcript (evs : List (List Segment)) (s : AppState) (h : evs ≠ []) :
    (runResults evs s).transcript =
      s.finalTranscript ++ String.join (evs.map finalsOf) ++ interimsOf (evs.getLast h) := by
  induction evs generalizing s with
  | nil => exact absurd rfl h
  | cons e rest ih =>
    simp only [runResults, List.foldl_cons] at ih ⊢
    by_cases hr : rest = []
    · subst hr
      simp [runResults, onresult_transcript, join_cons, String.join, String.append_assoc, List.getLast]
    · rw [ih _ hr, onresult_finalTranscript]
      rw [List.getLast_cons hr]
      simp [join_cons, String.append_assoc]

/-- An occurrence the component can react to: a recognition callback
(`onresult`, `onerror`, `onend`), a click on one of the buttons, or the
settlement of an outstanding summarization request. -/
inductive Event where
  | result (segs : List Segment)
  | recErr (e : String)
  | recEnded
  | toggle (startThrows : Bool)
  | clear
  | summarizeClick
  | summarizeSettled (r : SummarizeResult)
deriving DecidableEq, Repr

/-- Session state together with the number of summarization HTTP requests
currently in flight. -/
structure Config where
  app : AppState
  outstanding : Nat
deriving DecidableEq, Repr

/-- One cooperative-scheduler step. `summarizeClick` is only enabled when
the summarize button is not disabled, i.e. when `isSummarizing` is false
(App.tsx line 147, `disabled=isSummarizing`); when enabled it runs the
synchronous prefix of `summarizeTranscript` and, if a request went out,
increments the in-flight count. `summarizeSettled` is only possible when a
request is actually outstanding. -/
def stepFn (e : Event) (c : Config) : Option Config :=
  match e with
  | .result segs => some ⟨onresult segs c.app, c.outstanding⟩
  | .recErr msg => some ⟨onerror msg c.app, c.outstanding⟩
  | .recEnded => some ⟨onend c.app, c.outstanding⟩
  | .toggle b => some ⟨toggleListening b c.app, c.outstanding⟩
  | .clear => some ⟨clearTranscript c.app, c.outstanding⟩
  | .summarizeClick =>
      if c.app.isSummarizing then none
      else
        let p := summarizeStart c.app
        some ⟨p.1, c.outstanding + (if p.2 then 1 else 0)⟩
  | .summarizeSettled r =>
      match c.outstanding with
      | 0 => none
      | n + 1 => some ⟨summarizeComplete r c.app, n⟩

/-- Configurations reachable from the mounted component. -/
inductive Reachable (available : Bool) : Config → Prop where
  | init : Reachable available ⟨initState available, 0⟩
  | step {c c' : Config} (e : Event) :
      Reachable available c → stepFn e c = some c' → Reachable available c'

/-- C1: for every sequence of recognition-update events delivered to the
onresult handler starting from the mounted state, the displayed transcript
equals the concatenation of all segments marked final across all prior
events, each followed by one separating space, followed by the interim
segments of only the most recent event; in particular the event with final
segment "hello" followed by the event with interim segment " world" yields
the displayed transcript "hello  world". -/
theorem C1_transcript_fold (available : Bool) (evs : List (List Segment)) :
    (runResults evs (initState available)).transcript = specTranscript evs ∧
    (runResults [[⟨"hello", true⟩], [⟨" world", false⟩]]
        (initState available)).transcript = "hello  world" := by
  constructor
  · by_cases h : evs = []
    · subst h
      simp [runResults, specTranscript, initState, interimsOf, String.join]
    · rw [runResults_transcript _ _ h]
      simp only [specTranscript, initState]
      rw [List.getLast?_eq_getLast _ h]
      simp
  · simp [runResults, onresult, foldSegments, initState]

/-- C2 (code bug witness): in the mounted state with no speech-recognition
capability, the error slot holds the capability-unsupported message, yet
invoking toggle-listening sets the listening flag to true and clears the
error slot — because `recognitionRef.current?.start()` on a null ref is a
no-op rather than a throw, the success branch of the try block runs. This
contradicts the claim that listening stays false and the error stays
surfaced. -/
theorem C2_toggle_without_capability_bug :
    (initState false).error = some unsupportedMsg ∧
    (toggleListening false (initState false)).isListening = true ∧
    (toggleListening false (initState false)).error = none := by
  refine ⟨rfl, ?_, ?_⟩ <;> simp [toggleListening, initState]

/-- C3: triggering summarization in a state with an empty transcript issues
no network request, sets the error slot to the empty-input message, and
leaves the summary unchanged. -/
theorem C3_empty_transcript_no_request (s : AppState) (h : s.transcript = "") :
    (summarizeStart s).2 = false ∧
    (summarizeStart s).1.error = some emptyMsg ∧
    (summarizeStart s).1.summary = s.summary := by
  simp [summarizeStart, h]

theorem C3_empty_transcript_no_request_witness :
    (initState true).transcript = "" ∧
    ((summarizeStart (initState true)).2 = false ∧
     (summarizeStart (initState true)).1.error = some emptyMsg ∧
     (summarizeStart (initState true)).1.summary = (initState true).summary) :=
  ⟨rfl, C3_empty_transcript_no_request (initState true) rfl⟩

/-- C4: every failing summarization outcome (network error, non-2xx
response, or a body without a first choice) sets the error slot to the
generic failure message and leaves the previous summary unchanged; the
underlying cause goes only to the diagnostics log, never into the
user-facing error slot (which is the fixed generic text regardless of the
cause). -/
theorem C4_failure_generic_error (s : AppState) (r : SummarizeResult)
    (h : r.isFailure = true) :
    (summarizeComplete r s).error = some genericFailMsg ∧
    (summarizeComplete r s).summary = s.summary ∧
    ∀ cause, (summarizeComplete (SummarizeResult.err cause) s).log =
      s.log ++ ["Error summarizing transcript: " ++ cause] := by
  match r with
  | .ok [] => exact ⟨rfl, rfl, fun cause => rfl⟩
  | .ok (c :: cs) => simp [SummarizeResult.isFailure] at h
  | .err cause => exact ⟨rfl, rfl, fun cause => rfl⟩

theorem C4_failure_generic_error_witness :
    (SummarizeResult.err "HTTP 500").isFailure = true ∧
    ((summarizeComplete (SummarizeResult.err "HTTP 500") (initState true)).error
        = some genericFailMsg ∧
     (summarizeComplete (SummarizeResult.err "HTTP 500") (initState true)).summary
        = (initState true).summary ∧
     ∀ cause,
       (summarizeComplete (SummarizeResult.err cause) (initState true)).log =
         (initState true).log ++ ["Error summarizing transcript: " ++ cause]) :=
  ⟨rfl, C4_failure_generic_error (initState true) (SummarizeResult.err "HTTP 500") rfl⟩

/-- C5: in every reachable configuration the summarizing flag is true
exactly when one summarization request is outstanding, at most one request
is ever in flight, and while the flag is true the summarize action is
disabled (a click is not an enabled step), so a second concurrent request is
impossible. -/
theorem C5_single_outstanding_request (available : Bool) (c : Config)
    (h : Reachable available c) :
    (c.app.isSummarizing = true ↔ c.outstanding = 1) ∧
    c.outstanding ≤ 1 ∧
    (c.app.isSummarizing = true → stepFn Event.summarizeClick c = none) := by
  induction h with
  | init => simp [initState, stepFn]
  | step e hr hstep ih =>
    rename_i c c'
    refine ?_
    have hclick : ∀ d : Config, d.app.isSummarizing = true →
        stepFn Event.summarizeClick d = none := by
      intro d hd
      simp [stepFn, hd]
    cases e with
    | result segs =>
      simp only [stepFn, Option.some.injEq] at hstep
      subst hstep
      exact ⟨by simpa [onresult] using ih.1, ih.2.1, hclick _⟩
    | recErr msg =>
      simp only [stepFn, Option.some.injEq] at hstep
      subst hstep
      exact ⟨by simpa [onerror] using ih.1, ih.2.1, hclick _⟩
    | recEnded =>
      simp only [stepFn, Option.some.injEq] at hstep
      subst hstep
      exact ⟨by simpa [onend] using ih.1, ih.2.1, hclick _⟩
    | toggle b =>
      simp only [stepFn, Option.some.injEq] at hstep
      subst hstep
      have : (toggleListening b c.app).isSummarizing = c.app.isSummarizing := by
        simp only [toggleListening]
        split <;> try rfl
        split <;> rfl
      exact ⟨by rw [this]; exact ih.1, ih.2.1, hclick _⟩
    | clear =>
      simp only [stepFn, Option.some.injEq] at hstep
      subst hstep
      exact ⟨by simpa [clearTranscript] using ih.1, ih.2.1, hclick _⟩
    | summarizeClick =>
      simp only [stepFn] at hstep
      by_cases hs : c.app.isSummarizing = true
      · simp [hs] at hstep
      · have hsf : c.app.isSummarizing = false := by
          cases hb : c.app.isSummarizing
          · rfl
          · exact absurd hb hs
        have hout : c.outstanding = 0 := by
          have h1 := ih.2.1
          have h2 : c.outstanding ≠ 1 := fun hone => hs (ih.1.mpr hone)
          omega
        simp only [hsf, Bool.false_eq_true, if_false, Option.some.injEq] at hstep
        subst hstep
        by_cases ht : c.app.transcript = ""
        · refine ⟨?_, ?_, hclick _⟩
          · simp [summarizeStart, ht, hsf, hout]
          · simp [summarizeStart, ht, hout]
        · refine ⟨?_, ?_, hclick _⟩
          · simp [summarizeStart, ht, hout]
          · simp [summarizeStart, ht, hout]
    | summarizeSettled r =>
      simp only [stepFn] at hstep
      match hc : c.outstanding with
      | 0 => rw [hc] at hstep; exact absurd hstep (by simp)
      | n + 1 =>
        rw [hc] at hstep
        simp only [Option.some.injEq] at hstep
        subst hstep
        have hn : n = 0 := by have := ih.2.1; omega
        subst hn
        have hfalse : (summarizeComplete r c.app).isSummarizing = false := by
          match r with
          | .ok [] => rfl
          | .ok (x :: xs) => rfl
          | .err cause => rfl
        exact ⟨by simp [hfalse], by simp, hclick _⟩

theorem C5_single_outstanding_request_witness :
    ((⟨initState true, 0⟩ : Config).app.isSummarizing = true ↔
        (⟨initState true, 0⟩ : Config).outstanding = 1) ∧
    (⟨initState true, 0⟩ : Config).outstanding ≤ 1 ∧
    ((⟨initState true, 0⟩ : Config).app.isSummarizing = true →
        stepFn Event.summarizeClick ⟨initState true, 0⟩ = none) :=
  C5_single_outstanding_request true ⟨initState true, 0⟩ Reachable.init

/-- C6: a successful summarization response yields as new summary the first
completion choice's text with surrounding whitespace trimmed, replacing any
previous summary; in particular a response whose first choice text is
" A short summary. " yields the summary "A short summary.". -/
theorem C6_success_trims_first_choice (s : AppState) (c : String)
    (rest : List String) :
    (summarizeComplete (SummarizeResult.ok (c :: rest)) s).summary = trimStr c ∧
    (summarizeComplete (SummarizeResult.ok [" A short summary. "]) s).summary
      = "A short summary." := by
  refine ⟨rfl, ?_⟩
  show trimStr " A short summary. " = "A short summary."
  decide

/-- C7: the clear action sets both the transcript and the summary to the
empty string and leaves the listening flag unchanged. -/
theorem C7_clear_resets (s : AppState) :
    (clearTranscript s).transcript = "" ∧
    (clearTranscript s).summary = "" ∧
    (clearTranscript s).isListening = s.isListening :=
  ⟨rfl, rfl, rfl⟩

/-- C8: when the listening flag is false and the start call does not throw
(in particular whenever no recognition object exists, since optional
chaining on a null ref cannot throw), toggle-listening sets the error slot
to none, erasing any previously displayed error. -/
theorem C8_toggle_clears_error (s : AppState) (b : Bool)
    (h1 : s.isListening = false) (h2 : (s.recognitionAvailable && b) = false) :
    (toggleListening b s).error = none := by
  simp [toggleListening, h1, h2]

theorem C8_toggle_clears_error_witness :
    (initState false).isListening = false ∧
    ((initState false).recognitionAvailable && false) = false ∧
    (initState false).error = some unsupportedMsg ∧
    (toggleListening false (initState false)).error = none :=
  ⟨rfl, rfl, rfl, C8_toggle_clears_error (initState false) false rfl rfl⟩

/-- C9: triggering summarization in a state with a non-empty transcript
sets the error slot to none in the synchronous prefix that issues the
request, so any previously displayed error is erased when the attempt
starts. -/
theorem C9_start_clears_error (s : AppState) (h : s.transcript ≠ "") :
    (summarizeStart s).1.error = none ∧ (summarizeStart s).2 = true := by
  simp [summarizeStart, h]

theorem C9_start_clears_error_witness :
    ({ initState true with transcript := "hi" } : AppState).transcript ≠ "" ∧
    ((summarizeStart { initState true with transcript := "hi" }).1.error = none ∧
     (summarizeStart { initState true with transcript := "hi" }).2 = true) :=
  ⟨by decide, C9_start_clears_error { initState true with transcript := "hi" }
      (by decide)⟩

/-- C10: the clear action leaves the error slot and the summarizing flag
unchanged — indeed every field other than the transcript and the summary is
unchanged. -/
theorem C10_clear_frame (s : AppState) :
    (clearTranscript s).error = s.error ∧
    (clearTranscript s).isSummarizing = s.isSummarizing ∧
    (clearTranscript s).isListening = s.isListening ∧
    (clearTranscript s).finalTranscript = s.finalTranscript ∧
    (clearTranscript s).recognitionAvailable = s.recognitionAvailable ∧
    (clearTranscript s).log = s.log :=
  ⟨rfl, rfl, rfl, rfl, rfl, rfl⟩

end SpeechApp
